import Mathlib

/-!
Verification of the APIHub support chatbot / dashboard (repository
TurinCodes8689/Chatbot).  The Python sources are shallowly embedded:

* `src/1_Chatbot.py` — startup credential checks, `send_whatsapp`,
  `create_ticket`, and the system prompt with its fallback phrase.
* `src/2_Dashboard.py` — the open/closed ticket views, the age-sorted
  open-ticket listing, the Close-Ticket handler, and `get_api_logs`.

Time is embedded as integer UTC seconds (`datetime.utcnow()` / ISO-8601
strings are order-isomorphic to it).  The MongoDB ticket collection is a
list of `(id, record)` pairs together with the next fresh id; Streamlit
message calls (`st.info` / `st.warning` / …) are recorded as values; Python
exceptions are `Except` values; a `try/except` block is a `match` on them.

The escalation policy and the conversation-turn handler are described by
the specification but their code is not under `src/` (the chat UI is an
embedded HTML/JS component); those definitions are modelled from the spec
and are marked as such in their doc comments.
-/

namespace Chatbot

/-! ### Character-list substring matching

The Python `needle in haystack` test on strings, embedded on `List Char`. -/

/-- Whether `needle` is a prefix of `hay` (Boolean, executable). -/
def prefixCheck : List Char → List Char → Bool
  | [], _ => true
  | _ :: _, [] => false
  | a :: as, b :: bs => a == b && prefixCheck as bs

/-- Whether `needle` occurs contiguously somewhere in `hay` (Python `in`). -/
def substrCheck (needle : List Char) : List Char → Bool
  | [] => needle.isEmpty
  | b :: bs => prefixCheck needle (b :: bs) || substrCheck needle bs

theorem prefixCheck_iff (n l : List Char) :
    prefixCheck n l = true ↔ ∃ t, n ++ t = l := by
  induction n generalizing l with
  | nil => simp [prefixCheck]
  | cons a as ih =>
    cases l with
    | nil => simp [prefixCheck]
    | cons b bs =>
      simp only [prefixCheck, Bool.and_eq_true, beq_iff_eq, ih, List.cons_append,
        List.cons.injEq]
      constructor
      · rintro ⟨rfl, t, rfl⟩; exact ⟨t, rfl, rfl⟩
      · rintro ⟨t, rfl, rfl⟩; exact ⟨rfl, t, rfl⟩

theorem substrCheck_iff (n l : List Char) :
    substrCheck n l = true ↔ ∃ s t, s ++ n ++ t = l := by
  induction l with
  | nil =>
    simp only [substrCheck, List.isEmpty_iff]
    constructor
    · rintro rfl; exact ⟨[], [], rfl⟩
    · rintro ⟨s, t, h⟩
      rcases List.append_eq_nil.mp h with ⟨h1, h2⟩
      exact (List.append_eq_nil.mp h1).2
  | cons b bs ih =>
    simp only [substrCheck, Bool.or_eq_true, prefixCheck_iff, ih]
    constructor
    · rintro (⟨t, ht⟩ | ⟨s, t, rfl⟩)
      · exact ⟨[], t, by simpa using ht⟩
      · exact ⟨b :: s, t, rfl⟩
    · rintro ⟨s, t, h⟩
      cases s with
      | nil => exact Or.inl ⟨t, by simpa using h⟩
      | cons c cs =>
        simp only [List.cons_append, List.cons.injEq] at h
        exact Or.inr ⟨cs, t, h.2⟩

/-- Lower-cased character data of a string (Python `s.lower()`). -/
def lcData (s : String) : List Char := s.data.map Char.toLower

/-- Python `s.strip()` on character data. -/
def trimData (l : List Char) : List Char :=
  ((l.dropWhile Char.isWhitespace).reverse.dropWhile Char.isWhitespace).reverse

/-- ASCII apostrophe, kept out of string literals. -/
def apos : String := (Char.ofNat 39).toString

/-! ### Data model

A ticket document as built by `create_ticket` (src/1_Chatbot.py:74-80) and
later mutated by the Close-Ticket handler (src/2_Dashboard.py:1116):
fields `query`, `contact`, `status`, `created_at`, plus the `closed_at` field
that the dashboard `$set`s on close.  Timestamps are UTC seconds. -/

structure Ticket where
  query : String
  contact : String
  status : String
  created_at : Int
  closed_at : Option Int
  deriving Repr, DecidableEq

/-- The `support_tickets` Mongo collection: documents keyed by their
`_id` (`ObjectId`s embedded as naturals handed out in insertion order). -/
structure DB where
  tickets : List (Nat × Ticket)
  nextId : Nat
  deriving Repr, DecidableEq

/-- Kind of a Streamlit operator-facing message. -/
inductive MsgKind where
  | info
  | warning
  | error
  | success
  deriving Repr, DecidableEq

/-- Runtime environment of the chatbot process, as far as `send_whatsapp`
is concerned (src/1_Chatbot.py:50-71): whether `twilio_client` was
constructed, whether `twilio_number` / `support_number` are set, and
whether the Twilio transport call succeeds. -/
structure Env where
  twilioClient : Bool
  twilioNumber : Bool
  supportNumber : Bool
  sendOk : Bool
  deriving Repr, DecidableEq

/-- The call `twilio_client.messages.create(...)` (src/1_Chatbot.py:63-67): the
transport either succeeds or raises. -/
def twilioCreate (env : Env) : Except String Unit :=
  if env.sendOk then .ok () else .error "transport error"

/-- Result of one `send_whatsapp` call: how many transport attempts were
made, whether the message was delivered, and the Streamlit messages
shown. -/
structure SendReport where
  attempts : Nat
  delivered : Bool
  messages : List (MsgKind × String)
  deriving Repr, DecidableEq

/-- Embedding of `send_whatsapp` (src/1_Chatbot.py:60-71).  Guarded on
`twilio_client and twilio_number and support_number`; the single
`messages.create` call sits in a `try/except` whose handler issues
`st.warning`; the unconfigured branch issues `st.info`.  The function
returns normally in every case. -/
def send_whatsapp (env : Env) (_ticket_id : String) (_message : String) :
    SendReport :=
  if env.twilioClient && env.twilioNumber && env.supportNumber then
    match twilioCreate env with
    | .ok _ => { attempts := 1, delivered := true, messages := [] }
    | .error e =>
        { attempts := 1, delivered := false
          messages := [(MsgKind.warning, "Failed to send WhatsApp message: " ++ e)] }
  else
    { attempts := 0, delivered := false
      messages := [(MsgKind.info,
        "WhatsApp message not sent: Twilio not configured or support number missing.")] }

/-- The call `tickets.insert_one(ticket)` — appends the document under a fresh
`_id` and returns the inserted id; raises when the store is down
(`create_ticket` has no `try/except`, so such an error propagates). -/
def insert_one (storeOk : Bool) (db : DB) (t : Ticket) :
    Except String (DB × Nat) :=
  if storeOk then
    .ok ({ tickets := db.tickets ++ [(db.nextId, t)], nextId := db.nextId + 1 },
      db.nextId)
  else .error "store unavailable"

/-- Observable effects of a `create_ticket` call. -/
inductive Event where
  | insert (t : Ticket)
  | notify (ticket_id : String) (message : String)
  deriving Repr, DecidableEq

def Event.isNotify : Event → Bool
  | .notify _ _ => true
  | _ => false

def Event.isInsert : Event → Bool
  | .insert _ => true
  | _ => false

/-- What a successful `create_ticket` call produced. -/
structure CreateOutcome where
  db : DB
  inserted : Nat
  report : SendReport
  trace : List Event
  deriving Repr, DecidableEq

/-- Embedding of `create_ticket(query, contact="anonymous")` (src/1_Chatbot.py:74-83).
The Python default argument is embedded as an `Option` filled with the
sentinel; `created_at` is `datetime.utcnow()` (`now`); the document is
inserted, then `send_whatsapp(str(inserted_id), query)` is called once,
and the inserted id is returned. -/
def create_ticket (env : Env) (storeOk : Bool) (db : DB) (now : Int)
    (query : String) (contact? : Option String) :
    Except String CreateOutcome :=
  let contact := contact?.getD "anonymous"
  let t : Ticket :=
    { query := query, contact := contact, status := "open"
      created_at := now, closed_at := none }
  match insert_one storeOk db t with
  | .error e => .error e
  | .ok (db1, id) =>
      .ok { db := db1, inserted := id
            report := send_whatsapp env (toString id) query
            trace := [Event.insert t, Event.notify (toString id) query] }

/-! ### Dashboard ticket views (src/2_Dashboard.py:1082-1125) -/

/-- The query `tickets_collection.find(status open)` (src/2_Dashboard.py:1084),
in store order. -/
def openTickets (db : DB) : List (Nat × Ticket) :=
  db.tickets.filter (fun p => p.2.status == "open")

/-- Round-half-to-even to the nearest integer (Python 3 `round`). -/
def roundHE (x : ℚ) : ℤ :=
  if x - (⌊x⌋ : ℚ) < 1 / 2 then ⌊x⌋
  else if 1 / 2 < x - (⌊x⌋ : ℚ) then ⌊x⌋ + 1
  else if ⌊x⌋ % 2 = 0 then ⌊x⌋ else ⌊x⌋ + 1

/-- Python `round(x, 2)`. -/
def round2 (x : ℚ) : ℚ := (roundHE (x * 100) : ℚ) / 100

/-- The expression `round((utcnow() - created_at).total_seconds() / 3600, 2)`
(src/2_Dashboard.py:1089): a ticket's age in hours, two decimals. -/
def hours_open (now created : Int) : ℚ :=
  round2 (((now - created : Int) : ℚ) / 3600)

/-- Insertion step of a stable descending sort: an element goes in front
of the first strictly-smaller key; ties keep the earlier element first,
as the stable Python `sorted(..., reverse=True)` does. -/
def insertDesc (key : α → ℚ) (x : α) : List α → List α
  | [] => [x]
  | y :: ys => if key y ≤ key x then x :: y :: ys else y :: insertDesc key x ys

/-- Stable sort by `key`, descending — the behaviour of the Python
call `sorted(l, key=..., reverse=True)`. -/
def sortDesc (key : α → ℚ) : List α → List α
  | [] => []
  | x :: xs => insertDesc key x (sortDesc key xs)

/-- Embedding of `open_tickets_sorted` (src/2_Dashboard.py:1091): the open tickets
sorted by `hours_open` descending (oldest open ticket first). -/
def open_tickets_sorted (db : DB) (now : Int) : List (Nat × Ticket) :=
  sortDesc (fun p => hours_open now p.2.created_at) (openTickets db)

/-- The Close-Ticket button handler (src/2_Dashboard.py:1115-1116):
`update_one` on `_id` setting `status` to closed and `closed_at` to `utcnow()`.
No status guard: whatever the document's current state, its `status` and
`closed_at` are overwritten and nothing else changes. -/
def close_ticket (db : DB) (id : Nat) (now : Int) : DB :=
  { db with
    tickets := db.tickets.map (fun p =>
      if p.1 = id then
        (p.1, { p.2 with status := "closed", closed_at := some now })
      else p) }

/-! ### Ticket-mutating operations of the system

The only writes to `support_tickets` anywhere in the repository are
`create_ticket` (chatbot) and the Close-Ticket handler (dashboard). -/

inductive Op where
  | create (env : Env) (storeOk : Bool) (now : Int) (query : String)
      (contact? : Option String)
  | close (id : Nat) (now : Int)
  deriving Repr

/-- Effect of one operation on the ticket store.  A failed insert leaves
the store untouched (the exception propagates to the UI layer). -/
def applyOp (db : DB) : Op → DB
  | .create env storeOk now query contact? =>
      match create_ticket env storeOk db now query contact? with
      | .ok r => r.db
      | .error _ => db
  | .close id now => close_ticket db id now

/-- Run a sequence of operations. -/
def run (db : DB) : List Op → DB
  | [] => db
  | op :: ops => run (applyOp db op) ops

/-- Every stored id was handed out by the store: below `nextId`. -/
def IdsBounded (db : DB) : Prop :=
  ∀ p ∈ db.tickets, p.1 < db.nextId

/-- No two documents share an `_id`. -/
def UniqueIds (db : DB) : Prop :=
  (db.tickets.map Prod.fst).Nodup

/-! ### Startup (src/1_Chatbot.py:15-57)

Presence/truthiness of each environment value and whether each client
constructor raises.  `st.stop()` halts the script; the Twilio branch only
warns and serves on. -/

structure StartConfig where
  groqKey : Bool
  mongoUri : Bool
  twilioSid : Bool
  twilioToken : Bool
  twilioNumber : Bool
  supportNumber : Bool
  mongoConnectOk : Bool
  modelInitOk : Bool
  twilioInitOk : Bool
  deriving Repr, DecidableEq

inductive StartupOutcome where
  | stopped (msg : String)
  | serving (twilioClient : Bool) (warnings : List String)
  deriving Repr, DecidableEq

def StartupOutcome.isServing : StartupOutcome → Bool
  | .serving _ _ => true
  | .stopped _ => false

/-- Startup sequence of src/1_Chatbot.py: the explicit
`if not support_number: st.error(...); st.stop()` check (lines 23-25),
then the MongoDB `try/except` + `st.stop()` (28-35), the chat-model
`try/except` + `st.stop()` (38-47), and finally the non-fatal Twilio
initialization (50-57). -/
def startup (c : StartConfig) : StartupOutcome :=
  if !c.supportNumber then
    .stopped "SUPPORT_PHONE_NUMBER environment variable not set."
  else if !c.mongoConnectOk then .stopped "Failed to connect to MongoDB"
  else if !c.modelInitOk then .stopped "Failed to initialize Groq chat model"
  else if c.twilioSid && c.twilioToken then
    if c.twilioInitOk then .serving true []
    else .serving false ["Failed to initialize Twilio client"]
  else
    .serving false ["Twilio credentials not set. WhatsApp notifications will not work."]

/-! ### Escalation policy and conversation turn handler

The chat loop itself is not under `src/` (the page embeds an HTML/JS
component); only its collaborators (`create_ticket`, `send_whatsapp`,
`SYSTEM_PROMPT`) are.  The decision rule and the handler are therefore
modelled from the specification, §4.1-§4.2 and §6. -/

/-- The exact fallback sentence mandated by `SYSTEM_PROMPT`
(src/1_Chatbot.py:94). -/
def fallbackSentence : String :=
  "I cannot resolve this. A support ticket will be created."

/-- Marker phrase containing an apostrophe, assembled from `apos`. -/
def imNotSure : String := "i" ++ apos ++ "m not sure"

/-- Modelled from the spec: the fixed marker-phrase set of the Escalation
Policy (§4.1); the deciding code is not under `src/`. -/
def markers : List String :=
  ["i cannot resolve this", "not related", "off-topic", imNotSure,
   "contact support", "ticket will be created", "unable to provide an answer"]

/-- Modelled from the spec: the Escalation Policy decision (§4.1) —
`needs_ticket` is true iff the lower-cased answer contains some marker
phrase as a substring, or the answer-generation step raised; the deciding
code is not under `src/`. -/
def needsTicket (answer : String) (modelRaised : Bool) : Bool :=
  modelRaised || markers.any (fun m => substrCheck (lcData m) (lcData answer))

/-- Modelled from the spec: the built-in command alias table (§6), in
first-match-wins order; the intercepting code is not under `src/`. -/
def commandAliases : List (String × String) :=
  [("show help", "help"), ("commands", "help"),
   ("show recent support tickets", "recent_tickets"),
   ("show tickets", "recent_tickets"),
   ("show api usage statistics", "api_stats"), ("show api stats", "api_stats"),
   ("show contact information", "contact"), ("show contact", "contact"),
   ("contact support", "contact"),
   ("create manual support ticket", "new_ticket"), ("new ticket", "new_ticket")]

/-- Modelled from the spec: command interception (§4.2) — case-insensitive
substring match of each alias against the trimmed utterance, first match
wins; the intercepting code is not under `src/`. -/
def matchCommand (utterance : String) : Option String :=
  (commandAliases.find?
      (fun p => substrCheck (lcData p.1) (trimData (lcData utterance)))).map Prod.snd

/-- Modelled from the spec: canned/derived content per built-in command
(§4.2); placeholder bodies, only their identity matters here. -/
def cannedResponse (cmd : String) : String := "[command output: " ++ cmd ++ "]"

/-- Modelled from the spec: the internal-failure contact marker used on
the exception path (§4.2, §8 scenario 10). -/
def failureContact : String := "AI Chatbot Failure"

/-- Modelled from the spec: the apologetic reply used when ticket
creation itself fails on the exception path (§4.2). -/
def apologyReply : String :=
  "I am sorry, something went wrong and I also could not log this. Please contact support directly."

/-- One ticket-creation attempt made by the handler. -/
structure TicketAttempt where
  query : String
  contact : String
  deriving Repr, DecidableEq

/-- What one conversation turn produced. -/
structure TurnResult where
  modelCalled : Bool
  ticketAttempts : List TicketAttempt
  response : String
  db : DB
  deriving Repr, DecidableEq

/-- Modelled from the spec: the Conversation Turn Handler (§4.2); its code
is not under `src/`.  Command interception first (no model call); else the
model is invoked (its outcome is the `model` oracle argument): a normal
answer goes through the Escalation Policy, an exception always yields one
ticket-creation attempt tagged `failureContact`, and a creation failure
yields the apologetic reply with no retry.  Ticket creation is the
source-code `create_ticket`. -/
def handleTurn (env : Env) (storeOk : Bool) (db : DB) (now : Int)
    (utterance : String) (model : Except String String) : TurnResult :=
  match matchCommand utterance with
  | some cmd =>
      { modelCalled := false, ticketAttempts := [], response := cannedResponse cmd
        db := db }
  | none =>
      match model with
      | .ok answer =>
          if needsTicket answer false then
            match create_ticket env storeOk db now utterance none with
            | .ok r =>
                { modelCalled := true
                  ticketAttempts := [{ query := utterance, contact := "anonymous" }]
                  response := answer ++ " (Support ticket #" ++ toString r.inserted
                    ++ " has been created.)"
                  db := r.db }
            | .error _ =>
                { modelCalled := true
                  ticketAttempts := [{ query := utterance, contact := "anonymous" }]
                  response := answer ++ " (I could not log a support ticket right now.)"
                  db := db }
          else
            { modelCalled := true, ticketAttempts := [], response := answer, db := db }
      | .error e =>
          match create_ticket env storeOk db now utterance (some failureContact) with
          | .ok r =>
              { modelCalled := true
                ticketAttempts := [{ query := utterance, contact := failureContact }]
                response := "I hit an internal error: " ++ e ++ " Support ticket #"
                  ++ toString r.inserted ++ " has been created."
                db := r.db }
          | .error _ =>
              { modelCalled := true
                ticketAttempts := [{ query := utterance, contact := failureContact }]
                response := apologyReply
                db := db }

/-! ### `get_api_logs` (src/2_Dashboard.py:181-213) -/

/-- A cell value of the log DataFrame. -/
inductive Value where
  | str (s : String)
  | int (n : Int)
  | num (q : ℚ)
  | dt (t : Int)
  | null
  deriving Repr, DecidableEq

/-- A stored `api_usage_logs` document; every field may be missing. -/
structure LogRec where
  api : Option String
  timestamp : Option Int
  user_id : Option String
  status_code : Option Int
  country : Option String
  api_version : Option String
  endpoint : Option String
  latency_ms : Option ℚ
  deriving Repr, DecidableEq

/-- Field access by column name. -/
def getField (r : LogRec) : String → Option Value
  | "api" => r.api.map Value.str
  | "timestamp" => r.timestamp.map Value.dt
  | "user_id" => r.user_id.map Value.str
  | "status_code" => r.status_code.map Value.int
  | "country" => r.country.map Value.str
  | "api_version" => r.api_version.map Value.str
  | "endpoint" => r.endpoint.map Value.str
  | "latency_ms" => r.latency_ms.map Value.num
  | _ => none

/-- The `expected_cols` list (src/2_Dashboard.py:201). -/
def expectedCols : List String :=
  ["api", "timestamp", "user_id", "status_code", "country", "api_version",
   "endpoint", "latency_ms"]

/-- A pandas DataFrame, column-oriented: column name ↦ cell list. -/
abbrev DataFrame := List (String × List Value)

/-- The constructor `pd.DataFrame(list_of_dicts)`: a column exists iff some record has the
key; cells of records lacking it are NaN/None. -/
def ofRecords (logs : List LogRec) : DataFrame :=
  (expectedCols.filter (fun f => logs.any (fun r => (getField r f).isSome))).map
    (fun f => (f, logs.map (fun r => (getField r f).getD Value.null)))

/-- Column access / `col in df.columns` membership test. -/
def dfLookup (c : String) : DataFrame → Option (List Value)
  | [] => none
  | p :: rest => if p.1 = c then some p.2 else dfLookup c rest

/-- Replace column `c` if present, else append it. -/
def dfSetCol (df : DataFrame) (c : String) (vals : List Value) : DataFrame :=
  if (dfLookup c df).isSome then
    df.map (fun p => if p.1 = c then (c, vals) else p)
  else df ++ [(c, vals)]

/-- The Mongo date-range query built at src/2_Dashboard.py:183-189:
empty query without bounds; with a bound, the document needs a
`timestamp` within range. -/
def matchesQuery (startD endD : Option Int) (r : LogRec) : Bool :=
  match startD, endD with
  | none, none => true
  | _, _ =>
      match r.timestamp with
      | none => false
      | some t =>
          (match startD with | none => true | some s => decide (s ≤ t)) &&
          (match endD with | none => true | some e => decide (t ≤ e))

/-- Per-column synthesized default (the `if/elif` chain at
src/2_Dashboard.py:204-211; `timestamp` falls into the final `else`). -/
def defaultFor : String → Value
  | "api" => .str "unknown_api"
  | "user_id" => .str "unknown_user"
  | "status_code" => .int 200
  | "country" => .str "Unknown"
  | "api_version" => .str "v1.0"
  | "endpoint" => .str "/default"
  | "latency_ms" => .num 50
  | _ => .null

/-- The `for col in expected_cols` loop (src/2_Dashboard.py:202-211):
append a synthesized column `d c` for every expected column still
missing. -/
def addDefaults (d : String → List Value) (df : DataFrame) (cols : List String) :
    DataFrame :=
  cols.foldl
    (fun df c => if (dfLookup c df).isSome then df else df ++ [(c, d c)]) df

/-- Embedding of `get_api_logs(start_date, end_date)` (src/2_Dashboard.py:181-213):
fetch matching documents, build the DataFrame, normalize `timestamp`,
then synthesize any absent expected column with its default.  The
`timestamp` handling (lines 193-198) has three outcomes: with the column
present and rows fetched, `pd.to_datetime(df["timestamp"])` converts in
place; with no rows fetched, `df["timestamp"] = pd.to_datetime([])`
creates an empty column on the zero-row frame; but with rows fetched and
no `timestamp` column, that same assignment hands a length-0
DatetimeIndex to a frame of positive length and pandas raises
`ValueError`, which nothing in `get_api_logs` catches — the function
raises instead of returning. -/
def get_api_logs (recs : List LogRec) (startD endD : Option Int) :
    Except String DataFrame :=
  if (dfLookup "timestamp"
        (ofRecords (recs.filter (matchesQuery startD endD)))).isSome ∧
      recs.filter (matchesQuery startD endD) ≠ [] then
    .ok (addDefaults
      (fun c => List.replicate (recs.filter (matchesQuery startD endD)).length
        (defaultFor c))
      (ofRecords (recs.filter (matchesQuery startD endD))) expectedCols)
  else if (recs.filter (matchesQuery startD endD)).length = 0 then
    .ok (addDefaults
      (fun c => List.replicate (recs.filter (matchesQuery startD endD)).length
        (defaultFor c))
      (dfSetCol (ofRecords (recs.filter (matchesQuery startD endD)))
        "timestamp" [])
      expectedCols)
  else
    .error "ValueError: Length of values (0) does not match length of index"

/-! ## Claims -/

/-- C1: for every model answer, `needs_ticket` is true iff the lower-cased
answer contains one of the fixed marker phrases as a substring or the
answer-generation step raised; with no marker and no exception it is
false.  Grounding in the source: the `SYSTEM_PROMPT` fallback sentence
(src/1_Chatbot.py:94) itself triggers escalation. -/
theorem needs_ticket_iff :
    (∀ (answer : String) (modelRaised : Bool),
        needsTicket answer modelRaised = true ↔
          (modelRaised = true ∨
            ∃ m ∈ markers, ∃ s t, s ++ lcData m ++ t = lcData answer)) ∧
    needsTicket fallbackSentence false = true := by
  constructor
  · intro answer modelRaised
    simp only [needsTicket, Bool.or_eq_true, List.any_eq_true, substrCheck_iff]
  · decide

/-- C2: a successful `create_ticket` call appends exactly one open ticket
carrying the query, the (defaulted) contact and `created_at ≤ now`,
returns the id of that record, performs exactly one notification call
with at most one transport attempt, and the persisted ticket does not
depend on the notification environment. -/
theorem create_ticket_spec (env : Env) (storeOk : Bool) (db : DB) (now : Int)
    (query : String) (contact? : Option String) (r : CreateOutcome)
    (h : create_ticket env storeOk db now query contact? = .ok r) :
    (∃ t : Ticket,
        r.db.tickets = db.tickets ++ [(r.inserted, t)] ∧
        t.query = query ∧ t.contact = contact?.getD "anonymous" ∧
        t.status = "open" ∧ t.created_at ≤ now) ∧
    (r.trace.filter Event.isInsert).length = 1 ∧
    (r.trace.filter Event.isNotify).length = 1 ∧
    r.report.attempts ≤ 1 ∧
    r.report = send_whatsapp env (toString r.inserted) query ∧
    (∀ env' : Env, ∃ r' : CreateOutcome,
        create_ticket env' storeOk db now query contact? = .ok r' ∧
        r'.db = r.db ∧ r'.inserted = r.inserted) := by
  cases storeOk with
  | false => simp [create_ticket, insert_one] at h
  | true =>
    simp only [create_ticket, insert_one, if_true] at h
    cases h
    refine ⟨⟨_, rfl, rfl, rfl, rfl, le_refl now⟩, rfl, rfl, ?_, rfl, ?_⟩
    · unfold send_whatsapp
      split
      · split <;> simp
      · simp
    · intro env'
      exact ⟨_, rfl, rfl, rfl⟩

/-- C2 witness: a concrete successful call. -/
theorem create_ticket_spec_witness :
    create_ticket ⟨true, true, true, true⟩ true ⟨[], 0⟩ 5 "q" none =
        .ok { db := ⟨[(0, ⟨"q", "anonymous", "open", 5, none⟩)], 1⟩
              inserted := 0
              report := { attempts := 1, delivered := true, messages := [] }
              trace := [Event.insert ⟨"q", "anonymous", "open", 5, none⟩,
                        Event.notify "0" "q"] } ∧
    (∃ t : Ticket,
        (DB.mk [(0, ⟨"q", "anonymous", "open", 5, none⟩)] 1).tickets =
          (DB.mk [] 0).tickets ++ [(0, t)] ∧
        t.query = "q" ∧ t.contact = (none : Option String).getD "anonymous" ∧
        t.status = "open" ∧ t.created_at ≤ 5) := by
  refine ⟨rfl, ?_⟩
  have h := create_ticket_spec ⟨true, true, true, true⟩ true ⟨[], 0⟩ 5 "q" none
    { db := ⟨[(0, ⟨"q", "anonymous", "open", 5, none⟩)], 1⟩
      inserted := 0
      report := { attempts := 1, delivered := true, messages := [] }
      trace := [Event.insert ⟨"q", "anonymous", "open", 5, none⟩,
                Event.notify "0" "q"] } rfl
  exact h.1

/-- C3 counterexample: with Twilio unconfigured, `send_whatsapp` makes no
transport attempt and reports the failure through `st.info`, not through
a warning — refuting "any failure (missing credentials or transport
error) is ... reported only as a warning". -/
theorem send_whatsapp_counterexample :
    (send_whatsapp ⟨false, true, true, true⟩ "1" "q").attempts = 0 ∧
    (send_whatsapp ⟨false, true, true, true⟩ "1" "q").messages.map Prod.fst =
      [MsgKind.info] ∧
    MsgKind.info ≠ MsgKind.warning := by decide

/-- C3 (amended): `send_whatsapp` attempts the transport at most once and
never lets an exception escape; a transport error is caught and reported
as a warning, while a missing-configuration skip is reported as an info
notice (not a warning). -/
theorem send_whatsapp_once_no_raise (env : Env) (tid msg : String) :
    (send_whatsapp env tid msg).attempts ≤ 1 ∧
    ((env.twilioClient && env.twilioNumber && env.supportNumber) = true →
      (send_whatsapp env tid msg).attempts = 1 ∧
      (env.sendOk = false →
        (send_whatsapp env tid msg).messages.map Prod.fst = [MsgKind.warning]) ∧
      (env.sendOk = true →
        (send_whatsapp env tid msg).messages = [] ∧
        (send_whatsapp env tid msg).delivered = true)) ∧
    ((env.twilioClient && env.twilioNumber && env.supportNumber) = false →
      (send_whatsapp env tid msg).attempts = 0 ∧
      (send_whatsapp env tid msg).messages.map Prod.fst = [MsgKind.info]) := by
  obtain ⟨tc, tn, sn, so⟩ := env
  cases tc <;> cases tn <;> cases sn <;> cases so <;>
    simp [send_whatsapp, twilioCreate]

/-- C3 witness: the amended theorem at a configured environment with a
failing transport. -/
theorem send_whatsapp_once_no_raise_witness :
    (send_whatsapp ⟨true, true, true, false⟩ "1" "q").attempts = 1 ∧
    (send_whatsapp ⟨true, true, true, false⟩ "1" "q").messages.map Prod.fst =
      [MsgKind.warning] := by
  have h := send_whatsapp_once_no_raise ⟨true, true, true, false⟩ "1" "q"
  exact ⟨(h.2.1 (by decide)).1, (h.2.1 (by decide)).2.1 (by decide)⟩

/-- C4: the Close-Ticket handler overwrites the matched ticket's `status`
with `"closed"` and its `closed_at` with the current time, touches no
other field and no other ticket, and — being unguarded — closing an
already-closed ticket just re-writes `closed_at` with the newer time. -/
theorem close_ticket_spec (db : DB) (id : Nat) (now now' : Int) :
    (∀ p ∈ db.tickets, p.1 = id →
        (id, { p.2 with status := "closed", closed_at := some now }) ∈
          (close_ticket db id now).tickets) ∧
    (∀ p ∈ db.tickets, p.1 ≠ id → p ∈ (close_ticket db id now).tickets) ∧
    (∀ p ∈ db.tickets, p.1 = id →
        (id, { p.2 with status := "closed", closed_at := some now' }) ∈
          (close_ticket (close_ticket db id now) id now').tickets) := by
  refine ⟨?_, ?_, ?_⟩
  · intro p hp hid
    have := List.mem_map_of_mem
      (fun q => if q.1 = id then
          (q.1, { q.2 with status := "closed", closed_at := some now })
        else q) hp
    simpa [close_ticket, hid] using this
  · intro p hp hid
    have := List.mem_map_of_mem
      (fun q => if q.1 = id then
          (q.1, { q.2 with status := "closed", closed_at := some now })
        else q) hp
    simpa [close_ticket, hid] using this
  · intro p hp hid
    have h1 := List.mem_map_of_mem
      (fun q => if q.1 = id then
          (q.1, { q.2 with status := "closed", closed_at := some now })
        else q) hp
    have h2 := List.mem_map_of_mem
      (fun q => if q.1 = id then
          (q.1, { q.2 with status := "closed", closed_at := some now' })
        else q) h1
    simpa [close_ticket, hid] using h2

/-- C4 witness: closing an open ticket, then closing it again. -/
theorem close_ticket_spec_witness :
    ((0 : Nat), (⟨"q", "anonymous", "closed", 1, some 9⟩ : Ticket)) ∈
      (close_ticket
        (close_ticket ⟨[(0, ⟨"q", "anonymous", "open", 1, none⟩)], 1⟩ 0 7)
        0 9).tickets := by
  have h := (close_ticket_spec ⟨[(0, ⟨"q", "anonymous", "open", 1, none⟩)], 1⟩
    0 7 9).2.2 (0, ⟨"q", "anonymous", "open", 1, none⟩) (by decide) rfl
  exact h

/-! Helper facts for C5. -/

theorem eq_of_mem_nodup_keys {l : List (Nat × Ticket)}
    (h : (l.map Prod.fst).Nodup) {i : Nat} {a b : Ticket}
    (ha : (i, a) ∈ l) (hb : (i, b) ∈ l) : a = b := by
  induction l with
  | nil => cases ha
  | cons p rest ih =>
    simp only [List.map_cons, List.nodup_cons] at h
    rcases List.mem_cons.mp ha with rfl | ha' <;>
      rcases List.mem_cons.mp hb with hbeq | hb'
    · cases hbeq; rfl
    · exact absurd (by simpa using List.mem_map_of_mem Prod.fst hb') h.1
    · cases hbeq
      exact absurd (by simpa using List.mem_map_of_mem Prod.fst ha') h.1
    · exact ih h.2 ha' hb'

theorem uniqueIds_eq_of_mem {db : DB} (hU : UniqueIds db) {i : Nat}
    {a b : Ticket} (ha : (i, a) ∈ db.tickets) (hb : (i, b) ∈ db.tickets) :
    a = b :=
  eq_of_mem_nodup_keys hU ha hb

/-- The per-ticket closedness invariant used for C5: the id is in the
issued id range of the store and every record under it is closed. -/
def ClosedAt (i : Nat) (db : DB) : Prop :=
  i < db.nextId ∧ ∀ t : Ticket, (i, t) ∈ db.tickets → t.status = "closed"

theorem closedAt_applyOp {i : Nat} {db : DB} (h : ClosedAt i db) (op : Op) :
    ClosedAt i (applyOp db op) := by
  obtain ⟨hlt, hcl⟩ := h
  cases op with
  | create env storeOk now q c =>
    cases storeOk with
    | false => exact ⟨hlt, hcl⟩
    | true =>
      simp only [applyOp, create_ticket, insert_one, if_true]
      refine ⟨Nat.lt_succ_of_lt hlt, ?_⟩
      intro t ht
      rcases List.mem_append.mp ht with h' | h'
      · exact hcl t h'
      · simp only [List.mem_singleton, Prod.mk.injEq] at h'
        omega
  | close j now =>
    simp only [applyOp, close_ticket]
    refine ⟨hlt, ?_⟩
    intro t ht
    rcases List.mem_map.mp ht with ⟨⟨a, b⟩, hab, hfab⟩
    by_cases haj : a = j
    · simp only [haj, if_true, Prod.mk.injEq] at hfab
      rw [← hfab.2]
    · simp only [haj, if_false, Prod.mk.injEq] at hfab
      rw [hfab.1] at hab
      rw [← hfab.2]
      exact hcl b hab

theorem closedAt_run {i : Nat} {db : DB} (h : ClosedAt i db) :
    ∀ ops : List Op, ClosedAt i (run db ops) := by
  intro ops
  induction ops generalizing db with
  | nil => exact h
  | cons op rest ih => exact ih (closedAt_applyOp h op)

/-- C5: the Close-Ticket handler is the only system operation that can
turn a ticket's status into `"closed"`, and once a ticket is closed, no
later sequence of operations ever shows it in the open-tickets query
again. -/
theorem close_only_closes (db : DB) (hU : UniqueIds db) (hB : IdsBounded db) :
    (∀ (op : Op) (i : Nat) (t tnew : Ticket),
        (i, t) ∈ db.tickets → t.status ≠ "closed" →
        (i, tnew) ∈ (applyOp db op).tickets → tnew.status = "closed" →
        ∃ now, op = Op.close i now) ∧
    (∀ (i : Nat) (t : Ticket), (i, t) ∈ db.tickets → t.status = "closed" →
        ∀ ops : List Op,
          (∀ tnew : Ticket, (i, tnew) ∈ (run db ops).tickets →
            tnew.status = "closed") ∧
          (∀ tnew : Ticket, (i, tnew) ∉ openTickets (run db ops))) := by
  constructor
  · intro op i t tnew ht htop hnew hclosed
    cases op with
    | create env storeOk now q c =>
      exfalso
      cases storeOk with
      | false =>
        simp only [applyOp, create_ticket, insert_one, if_false] at hnew
        exact htop ((uniqueIds_eq_of_mem hU ht hnew) ▸ hclosed)
      | true =>
        simp only [applyOp, create_ticket, insert_one, if_true] at hnew
        rcases List.mem_append.mp hnew with h' | h'
        · exact htop ((uniqueIds_eq_of_mem hU ht h') ▸ hclosed)
        · simp only [List.mem_singleton, Prod.mk.injEq] at h'
          have : tnew.status = "open" := by rw [h'.2]
          rw [this] at hclosed
          exact absurd hclosed (by decide)
    | close j now =>
      simp only [applyOp, close_ticket] at hnew
      rcases List.mem_map.mp hnew with ⟨⟨a, b⟩, hab, hfab⟩
      by_cases haj : a = j
      · simp only [haj, if_true] at hfab
        cases hfab
        exact ⟨now, rfl⟩
      · simp only [haj, if_false] at hfab
        cases hfab
        exact absurd ((uniqueIds_eq_of_mem hU ht hab) ▸ hclosed) htop
  · intro i t ht hclosed ops
    have h0 : ClosedAt i db := by
      refine ⟨hB (i, t) ht, ?_⟩
      intro t' ht'
      rw [uniqueIds_eq_of_mem hU ht' ht]
      exact hclosed
    have hrun := closedAt_run h0 ops
    refine ⟨fun tnew h' => hrun.2 tnew h', ?_⟩
    intro tnew hmem
    have hopen : tnew.status = "open" := by
      simpa [openTickets] using (List.mem_filter.mp hmem).2
    have : tnew.status = "closed" :=
      hrun.2 tnew (List.mem_filter.mp hmem).1
    rw [hopen] at this
    exact absurd this (by decide)

/-- C5 witness: a closed ticket stays out of the open listing across a
create and a spurious extra close. -/
theorem close_only_closes_witness :
    ((0 : Nat), (⟨"q", "anonymous", "closed", 1, some 4⟩ : Ticket)) ∉
      openTickets
        (run ⟨[(0, ⟨"q", "anonymous", "closed", 1, some 2⟩)], 1⟩
          [Op.create ⟨true, true, true, true⟩ true 3 "q2" none, Op.close 0 4]) := by
  have h := (close_only_closes ⟨[(0, ⟨"q", "anonymous", "closed", 1, some 2⟩)], 1⟩
    (by unfold UniqueIds; decide)
    (by intro p hp; simp only [List.mem_singleton] at hp; rw [hp]; decide)).2
    0 ⟨"q", "anonymous", "closed", 1, some 2⟩ (by simp) rfl
    [Op.create ⟨true, true, true, true⟩ true 3 "q2" none, Op.close 0 4]
  exact h.2 ⟨"q", "anonymous", "closed", 1, some 4⟩

/-! Helper facts for C6: rounding is monotone, the sort is ordered. -/

theorem roundHE_le (x : ℚ) : roundHE x ≤ ⌊x⌋ + 1 := by
  unfold roundHE
  split_ifs <;> omega

theorem le_roundHE (x : ℚ) : ⌊x⌋ ≤ roundHE x := by
  unfold roundHE
  split_ifs <;> omega

theorem roundHE_mono {x y : ℚ} (h : x ≤ y) : roundHE x ≤ roundHE y := by
  rcases lt_or_eq_of_le (Int.floor_le_floor h) with hlt | heq
  · calc roundHE x ≤ ⌊x⌋ + 1 := roundHE_le x
      _ ≤ ⌊y⌋ := by omega
      _ ≤ roundHE y := le_roundHE y
  · unfold roundHE
    rw [← heq]
    have hr : x - (⌊x⌋ : ℚ) ≤ y - (⌊x⌋ : ℚ) := by linarith
    split_ifs <;> first | omega | linarith

theorem round2_mono {x y : ℚ} (h : x ≤ y) : round2 x ≤ round2 y := by
  unfold round2
  have : (roundHE (x * 100) : ℚ) ≤ (roundHE (y * 100) : ℚ) :=
    Int.cast_le.mpr (roundHE_mono (by linarith))
  linarith

theorem hours_open_anti {now c1 c2 : Int} (h : c1 < c2) :
    hours_open now c2 ≤ hours_open now c1 := by
  unfold hours_open
  apply round2_mono
  have : ((now - c2 : Int) : ℚ) ≤ ((now - c1 : Int) : ℚ) := by
    exact_mod_cast Int.sub_le_sub_left (le_of_lt h) now
  linarith

theorem mem_of_insertDesc {α : Type} {key : α → ℚ} {x z : α} {l : List α}
    (hz : z ∈ insertDesc key x l) : z = x ∨ z ∈ l := by
  induction l with
  | nil => simpa [insertDesc] using hz
  | cons w ws ihw =>
    simp only [insertDesc] at hz
    split_ifs at hz
    · rcases List.mem_cons.mp hz with rfl | hz'
      · exact Or.inl rfl
      · exact Or.inr hz'
    · rcases List.mem_cons.mp hz with rfl | hz'
      · exact Or.inr (List.mem_cons_self _ _)
      · rcases ihw hz' with h' | h'
        · exact Or.inl h'
        · exact Or.inr (List.mem_cons_of_mem _ h')

theorem pairwise_insertDesc {α : Type} (key : α → ℚ) (x : α) (l : List α)
    (h : l.Pairwise (fun a b => key b ≤ key a)) :
    (insertDesc key x l).Pairwise (fun a b => key b ≤ key a) := by
  induction l with
  | nil => simp [insertDesc]
  | cons y ys ih =>
    rw [List.pairwise_cons] at h
    by_cases hc : key y ≤ key x
    · rw [insertDesc, if_pos hc]
      refine List.Pairwise.cons ?_ (List.Pairwise.cons h.1 h.2)
      intro z hz
      rcases List.mem_cons.mp hz with rfl | hz'
      · exact hc
      · exact le_trans (h.1 z hz') hc
    · rw [insertDesc, if_neg hc]
      refine List.Pairwise.cons ?_ (ih h.2)
      intro z hz
      rcases mem_of_insertDesc hz with rfl | hz'
      · exact le_of_not_le hc
      · exact h.1 z hz'

theorem pairwise_sortDesc {α : Type} (key : α → ℚ) (l : List α) :
    (sortDesc key l).Pairwise (fun a b => key b ≤ key a) := by
  induction l with
  | nil => simp [sortDesc]
  | cons x xs ih => exact pairwise_insertDesc key x (sortDesc key xs) ih

/-- C6 counterexample: two open tickets whose creation times differ by one
second but whose rounded ages coincide.  The earlier-created ticket (id 1,
`created_at = 6400`) is listed *after* the later-created one (id 0,
`created_at = 6401`), because the stable sort keeps store order on equal
rounded keys — refuting "for any two open tickets A and B with
created_at(A) < created_at(B), A appears before B". -/
theorem open_tickets_sorted_counterexample :
    (6400 : Int) < 6401 ∧
    open_tickets_sorted
        ⟨[(0, ⟨"q0", "anonymous", "open", 6401, none⟩),
          (1, ⟨"q1", "anonymous", "open", 6400, none⟩)], 2⟩ 10000 =
      [(0, ⟨"q0", "anonymous", "open", 6401, none⟩),
       (1, ⟨"q1", "anonymous", "open", 6400, none⟩)] := by
  refine ⟨by decide, ?_⟩
  have h1 : hours_open 10000 6400 = 1 := by
    unfold hours_open round2
    rw [show ((10000 - 6400 : Int) : ℚ) / 3600 * 100 = 100 by norm_num]
    rw [show roundHE 100 = 100 by
      unfold roundHE
      rw [show ⌊(100 : ℚ)⌋ = 100 by norm_num]
      norm_num]
    norm_num
  have h2 : hours_open 10000 6401 = 1 := by
    unfold hours_open round2
    rw [show ((10000 - 6401 : Int) : ℚ) / 3600 * 100 = 3599 / 36 by norm_num]
    rw [show roundHE (3599 / 36) = 100 by
      unfold roundHE
      rw [show ⌊(3599 / 36 : ℚ)⌋ = 99 by norm_num]
      norm_num]
    norm_num
  unfold open_tickets_sorted
  rw [show openTickets
      ⟨[(0, ⟨"q0", "anonymous", "open", 6401, none⟩),
        (1, ⟨"q1", "anonymous", "open", 6400, none⟩)], 2⟩ =
      [(0, ⟨"q0", "anonymous", "open", 6401, none⟩),
       (1, ⟨"q1", "anonymous", "open", 6400, none⟩)] by decide]
  simp only [sortDesc, insertDesc]
  rw [h1, h2]
  simp

/-- C6 (amended): in the open-tickets listing the earlier-created of two
open tickets appears first *whenever their two-decimal rounded ages
differ*; the listing sorts descending on `hours_open` and, the sort being
stable, tickets with equal rounded ages keep store order (so a
one-second-younger ticket stored earlier can precede its elder, as the
counterexample shows). -/
theorem open_tickets_sorted_age_order (db : DB) (now : Int)
    (A B : Nat × Ticket)
    (iA iB : Fin (open_tickets_sorted db now).length)
    (hA : (open_tickets_sorted db now).get iA = A)
    (hB : (open_tickets_sorted db now).get iB = B)
    (hcreated : A.2.created_at < B.2.created_at)
    (hkey : hours_open now A.2.created_at ≠ hours_open now B.2.created_at) :
    (iA : Nat) < (iB : Nat) := by
  have hle : hours_open now B.2.created_at ≤ hours_open now A.2.created_at :=
    hours_open_anti hcreated
  have hlt : hours_open now B.2.created_at < hours_open now A.2.created_at :=
    lt_of_le_of_ne hle (fun he => hkey he.symm)
  have hp : ∀ (i j : Fin (open_tickets_sorted db now).length), i < j →
      hours_open now ((open_tickets_sorted db now).get j).2.created_at ≤
        hours_open now ((open_tickets_sorted db now).get i).2.created_at := by
    have h := pairwise_sortDesc
      (fun p : Nat × Ticket => hours_open now p.2.created_at) (openTickets db)
    rw [List.pairwise_iff_get] at h
    exact h
  by_contra hcon
  push_neg at hcon
  rcases lt_or_eq_of_le hcon with hlt2 | heq
  · have hthis := hp iB iA hlt2
    rw [hA, hB] at hthis
    exact absurd (lt_of_le_of_lt hthis hlt) (lt_irrefl _)
  · have hAB : iA = iB := Fin.ext heq.symm
    rw [hAB, hB] at hA
    rw [hA] at hlt
    exact absurd hlt (lt_irrefl _)

/-- C6 witness: the amended theorem at two tickets whose rounded ages
differ (two hours apart). -/
theorem open_tickets_sorted_age_order_witness :
    (0 : Nat) < 1 := by
  have hlist : open_tickets_sorted
      ⟨[(0, ⟨"q0", "anonymous", "open", 7200, none⟩),
        (1, ⟨"q1", "anonymous", "open", 0, none⟩)], 2⟩ 7200 =
      [(1, ⟨"q1", "anonymous", "open", 0, none⟩),
       (0, ⟨"q0", "anonymous", "open", 7200, none⟩)] := by
    have h1 : hours_open 7200 0 = 2 := by
      unfold hours_open round2
      rw [show ((7200 - 0 : Int) : ℚ) / 3600 * 100 = 200 by norm_num]
      rw [show roundHE 200 = 200 by
        unfold roundHE
        rw [show ⌊(200 : ℚ)⌋ = 200 by norm_num]
        norm_num]
      norm_num
    have h2 : hours_open 7200 7200 = 0 := by
      unfold hours_open round2
      rw [show ((7200 - 7200 : Int) : ℚ) / 3600 * 100 = 0 by norm_num]
      rw [show roundHE 0 = 0 by
        unfold roundHE
        rw [show ⌊(0 : ℚ)⌋ = 0 by norm_num]
        norm_num]
      norm_num
    unfold open_tickets_sorted
    rw [show openTickets
        ⟨[(0, ⟨"q0", "anonymous", "open", 7200, none⟩),
          (1, ⟨"q1", "anonymous", "open", 0, none⟩)], 2⟩ =
        [(0, ⟨"q0", "anonymous", "open", 7200, none⟩),
         (1, ⟨"q1", "anonymous", "open", 0, none⟩)] by decide]
    simp only [sortDesc, insertDesc]
    rw [h1, h2]
    norm_num
  have hlen : (open_tickets_sorted
      ⟨[(0, ⟨"q0", "anonymous", "open", 7200, none⟩),
        (1, ⟨"q1", "anonymous", "open", 0, none⟩)], 2⟩ 7200).length = 2 := by
    rw [hlist]
    rfl
  refine open_tickets_sorted_age_order
    ⟨[(0, ⟨"q0", "anonymous", "open", 7200, none⟩),
      (1, ⟨"q1", "anonymous", "open", 0, none⟩)], 2⟩ 7200
    (1, ⟨"q1", "anonymous", "open", 0, none⟩)
    (0, ⟨"q0", "anonymous", "open", 7200, none⟩)
    ⟨0, by rw [hlen]; omega⟩ ⟨1, by rw [hlen]; omega⟩ ?_ ?_ (by decide) ?_
  · rw [List.get_of_eq hlist]
    rfl
  · rw [List.get_of_eq hlist]
    rfl
  · intro he
    have h1 : hours_open 7200 0 = 2 := by
      unfold hours_open round2
      rw [show ((7200 - 0 : Int) : ℚ) / 3600 * 100 = 200 by norm_num]
      rw [show roundHE 200 = 200 by
        unfold roundHE
        rw [show ⌊(200 : ℚ)⌋ = 200 by norm_num]
        norm_num]
      norm_num
    have h2 : hours_open 7200 7200 = 0 := by
      unfold hours_open round2
      rw [show ((7200 - 7200 : Int) : ℚ) / 3600 * 100 = 0 by norm_num]
      rw [show roundHE 0 = 0 by
        unfold roundHE
        rw [show ⌊(0 : ℚ)⌋ = 0 by norm_num]
        norm_num]
      norm_num
    rw [h1, h2] at he
    norm_num at he

/-- C7 counterexample: a configuration in which *only* the support phone
number (an outbound-messaging phone-number identifier) is absent — model
key, database URI, Twilio credentials all fine — and the process refuses
to serve (src/1_Chatbot.py:23-25 calls `st.stop()`), refuting "if any of
the outbound-messaging credentials or phone-number identifiers are absent
at startup, the process continues serving". -/
theorem startup_counterexample :
    (startup ⟨true, true, true, true, true, false, true, true, true⟩).isServing
        = false ∧
    StartConfig.supportNumber ⟨true, true, true, true, true, false, true, true, true⟩
        = false ∧
    StartConfig.mongoConnectOk ⟨true, true, true, true, true, false, true, true, true⟩
        = true ∧
    StartConfig.modelInitOk ⟨true, true, true, true, true, false, true, true, true⟩
        = true := by decide

/-- C7 (amended): absence of the Twilio credentials (SID/token) is the
non-fatal degraded mode — the process serves with a warning, ticket
creation proceeds and the notification is skipped; but absence of the
*support* phone number is fatal (explicit `st.stop()`), as are a failed
database connection and a failed model initialization. -/
theorem startup_degraded_spec (c : StartConfig) :
    (c.supportNumber = false →
      startup c = .stopped "SUPPORT_PHONE_NUMBER environment variable not set.") ∧
    (c.supportNumber = true → c.mongoConnectOk = false →
      (startup c).isServing = false) ∧
    (c.supportNumber = true → c.mongoConnectOk = true → c.modelInitOk = false →
      (startup c).isServing = false) ∧
    (c.supportNumber = true → c.mongoConnectOk = true → c.modelInitOk = true →
      (startup c).isServing = true ∧
      ((c.twilioSid && c.twilioToken) = false →
        startup c = .serving false
          ["Twilio credentials not set. WhatsApp notifications will not work."])) ∧
    (∀ (tn sn : Bool) (db : DB) (now : Int) (q : String) (ct : Option String),
      ∃ r : CreateOutcome,
        create_ticket ⟨false, tn, sn, true⟩ true db now q ct = .ok r ∧
        r.report.attempts = 0) := by
  obtain ⟨gk, mu, ts, tt, tn, sn, mc, mi, ti⟩ := c
  refine ⟨?_, ?_, ?_, ?_, ?_⟩
  · cases sn <;> simp [startup, StartupOutcome.isServing]
  · cases sn <;> cases mc <;> simp [startup, StartupOutcome.isServing]
  · cases sn <;> cases mc <;> cases mi <;> cases ts <;> cases tt <;> cases ti <;>
      simp [startup, StartupOutcome.isServing]
  · cases sn <;> cases mc <;> cases mi <;> cases ts <;> cases tt <;> cases ti <;>
      simp [startup, StartupOutcome.isServing]
  · intro tn' sn' db now q ct
    exact ⟨_, rfl, rfl⟩

/-- C7 witness: the amended theorem at a configuration missing only the
Twilio credentials: the process serves in degraded mode. -/
theorem startup_degraded_spec_witness :
    (startup ⟨true, true, false, false, true, true, true, true, true⟩).isServing
        = true ∧
    startup ⟨true, true, false, false, true, true, true, true, true⟩ =
      .serving false
        ["Twilio credentials not set. WhatsApp notifications will not work."] := by
  have h := (startup_degraded_spec
    ⟨true, true, false, false, true, true, true, true, true⟩).2.2.2.1
    rfl rfl rfl
  exact ⟨h.1, h.2 rfl⟩

/-- C8: when the model invocation raises (and no built-in command
matched), the handler makes exactly one ticket-creation attempt with
`query` = the original utterance and the internal-failure contact marker
(distinct from the user-escalation sentinel `"anonymous"`), and returns a
normal response: with the store up, the response embeds the error detail;
if ticket creation also fails, the response is the apologetic message
without a ticket id and no second attempt is made. -/
theorem model_error_creates_ticket (env : Env) (storeOk : Bool) (db : DB)
    (now : Int) (utterance e : String)
    (hcmd : matchCommand utterance = none) :
    (handleTurn env storeOk db now utterance (.error e)).ticketAttempts =
        [{ query := utterance, contact := failureContact }] ∧
    failureContact ≠ "anonymous" ∧
    (storeOk = true →
      ∃ s t, s ++ e.data ++ t =
        (handleTurn env storeOk db now utterance (.error e)).response.data) ∧
    (storeOk = false →
      (handleTurn env storeOk db now utterance (.error e)).response = apologyReply ∧
      (handleTurn env storeOk db now utterance (.error e)).db = db) := by
  cases storeOk with
  | false =>
    refine ⟨?_, by decide, ?_, ?_⟩
    · simp only [handleTurn, hcmd]
      rfl
    · intro h; cases h
    · intro _
      constructor <;> (simp only [handleTurn, hcmd]; rfl)
  | true =>
    refine ⟨?_, by decide, ?_, ?_⟩
    · simp only [handleTurn, hcmd]
      rfl
    · intro _
      refine ⟨("I hit an internal error: ").data,
        (" Support ticket #" ++ toString db.nextId ++ " has been created.").data, ?_⟩
      simp only [handleTurn, hcmd]
      show _ = ("I hit an internal error: " ++ e ++ " Support ticket #"
        ++ toString db.nextId ++ " has been created.").data
      simp [String.data_append]
    · intro h; cases h

/-- C8 witness: a non-command utterance with a raising model and the
store up, and the same with the store down. -/
theorem model_error_creates_ticket_witness :
    (handleTurn ⟨true, true, true, true⟩ true ⟨[], 0⟩ 5
        "What is the weather today?" (.error "timeout")).ticketAttempts =
      [{ query := "What is the weather today?", contact := failureContact }] ∧
    (handleTurn ⟨true, true, true, true⟩ false ⟨[], 0⟩ 5
        "What is the weather today?" (.error "timeout")).response = apologyReply := by
  constructor
  · exact (model_error_creates_ticket ⟨true, true, true, true⟩ true ⟨[], 0⟩ 5
      "What is the weather today?" "timeout" (by decide)).1
  · exact ((model_error_creates_ticket ⟨true, true, true, true⟩ false ⟨[], 0⟩ 5
      "What is the weather today?" "timeout" (by decide)).2.2.2 rfl).1

/-- C9: an utterance matching a built-in command alias is answered with
the canned content and never reaches the model: no model call, no ticket
attempt, no store change. -/
theorem command_skips_model (env : Env) (storeOk : Bool) (db : DB) (now : Int)
    (utterance cmd : String) (model : Except String String)
    (hcmd : matchCommand utterance = some cmd) :
    (handleTurn env storeOk db now utterance model).modelCalled = false ∧
    (handleTurn env storeOk db now utterance model).response = cannedResponse cmd ∧
    (handleTurn env storeOk db now utterance model).ticketAttempts = [] ∧
    (handleTurn env storeOk db now utterance model).db = db := by
  simp [handleTurn, hcmd]

/-- C9 witness: the five command families at sample utterances. -/
theorem command_skips_model_witness :
    (handleTurn ⟨true, true, true, true⟩ true ⟨[], 0⟩ 5 "  Show Help  "
        (.ok "x")).modelCalled = false ∧
    (handleTurn ⟨true, true, true, true⟩ true ⟨[], 0⟩ 5 "show tickets"
        (.ok "x")).modelCalled = false ∧
    (handleTurn ⟨true, true, true, true⟩ true ⟨[], 0⟩ 5 "show api stats"
        (.ok "x")).modelCalled = false ∧
    (handleTurn ⟨true, true, true, true⟩ true ⟨[], 0⟩ 5 "contact support"
        (.ok "x")).modelCalled = false ∧
    (handleTurn ⟨true, true, true, true⟩ true ⟨[], 0⟩ 5 "new ticket"
        (.ok "x")).modelCalled = false :=
  ⟨(command_skips_model _ _ _ _ _ "help" _ (by decide)).1,
   (command_skips_model _ _ _ _ _ "recent_tickets" _ (by decide)).1,
   (command_skips_model _ _ _ _ _ "api_stats" _ (by decide)).1,
   (command_skips_model _ _ _ _ _ "contact" _ (by decide)).1,
   (command_skips_model _ _ _ _ _ "new_ticket" _ (by decide)).1⟩

/-! Helper facts for C10: column lookups through the DataFrame
construction steps. -/

theorem dfLookup_append_left {l1 l2 : DataFrame} {c : String} {v : List Value}
    (h : dfLookup c l1 = some v) : dfLookup c (l1 ++ l2) = some v := by
  induction l1 with
  | nil => simp [dfLookup] at h
  | cons p rest ih =>
    simp only [dfLookup] at h ⊢
    by_cases hc : p.1 = c
    · rwa [if_pos hc] at h ⊢
    · rw [if_neg hc] at h ⊢
      exact ih h

theorem dfLookup_append_right {l1 l2 : DataFrame} {c : String}
    (h : dfLookup c l1 = none) : dfLookup c (l1 ++ l2) = dfLookup c l2 := by
  induction l1 with
  | nil => simp
  | cons p rest ih =>
    simp only [dfLookup] at h ⊢
    by_cases hc : p.1 = c
    · rw [if_pos hc] at h
      cases h
    · rw [if_neg hc] at h ⊢
      exact ih h

theorem dfLookup_filter_map {names : List String} {p : String → Bool}
    {g : String → List Value} {c : String} :
    dfLookup c ((names.filter p).map (fun f => (f, g f))) =
      if c ∈ names.filter p then some (g c) else none := by
  induction names with
  | nil => simp [dfLookup]
  | cons f rest ih =>
    by_cases hp : p f
    · rw [List.filter_cons_of_pos hp, List.map_cons, dfLookup]
      by_cases hc : f = c
      · rw [if_pos hc, if_pos (by rw [← hc]; exact List.mem_cons_self _ _), hc]
      · rw [if_neg hc, ih]
        by_cases hm : c ∈ rest.filter p
        · rw [if_pos hm, if_pos (List.mem_cons_of_mem f hm)]
        · rw [if_neg hm, if_neg (by
            intro hmem
            rcases List.mem_cons.mp hmem with h' | h'
            · exact hc h'.symm
            · exact hm h')]
    · rw [List.filter_cons_of_neg hp, ih]

theorem dfLookup_dfSetCol_self (df : DataFrame) (c : String) (v : List Value) :
    dfLookup c (dfSetCol df c v) = some v := by
  unfold dfSetCol
  by_cases h : (dfLookup c df).isSome
  · rw [if_pos h]
    obtain ⟨w, hw⟩ := Option.isSome_iff_exists.mp h
    clear h
    induction df with
    | nil => simp [dfLookup] at hw
    | cons p rest ih =>
      rw [dfLookup] at hw
      rw [List.map_cons]
      by_cases hc : p.1 = c
      · rw [if_pos hc, dfLookup, if_pos rfl]
      · rw [if_neg hc, dfLookup, if_neg hc]
        rw [if_neg hc] at hw
        exact ih hw
  · rw [if_neg h]
    have hnone : dfLookup c df = none := by
      cases hl : dfLookup c df
      · rfl
      · rw [hl] at h
        simp at h
    rw [dfLookup_append_right hnone]
    simp [dfLookup]

theorem dfLookup_dfSetCol_other (df : DataFrame) {c c' : String}
    (v : List Value) (hne : c ≠ c') :
    dfLookup c (dfSetCol df c' v) = dfLookup c df := by
  unfold dfSetCol
  by_cases h : (dfLookup c' df).isSome
  · rw [if_pos h]
    clear h
    induction df with
    | nil => simp
    | cons p rest ih =>
      rw [List.map_cons, dfLookup]
      by_cases hp : p.1 = c'
      · rw [if_pos hp, dfLookup, if_neg (fun he => hne he.symm),
          if_neg (by rw [hp]; exact fun he => hne he.symm)]
        exact ih
      · rw [if_neg hp, dfLookup]
        by_cases hc : p.1 = c
        · rw [if_pos hc, if_pos hc]
        · rw [if_neg hc, if_neg hc]
          exact ih
  · rw [if_neg h]
    have hnone : dfLookup c' df = none := by
      cases hl : dfLookup c' df
      · rfl
      · rw [hl] at h
        simp at h
    cases hl : dfLookup c df with
    | some w => rw [dfLookup_append_left hl]
    | none =>
      rw [dfLookup_append_right hl, dfLookup,
        if_neg (fun he => hne he.symm)]
      rfl

theorem dfLookup_addDefaults_of_some {d : String → List Value}
    {df : DataFrame} {cols : List String} {c : String} {v : List Value}
    (h : dfLookup c df = some v) :
    dfLookup c (addDefaults d df cols) = some v := by
  induction cols generalizing df with
  | nil => exact h
  | cons c' rest ih =>
    unfold addDefaults
    rw [List.foldl_cons]
    by_cases hs : (dfLookup c' df).isSome
    · rw [if_pos hs]
      exact ih h
    · rw [if_neg hs]
      exact ih (dfLookup_append_left h)

theorem dfLookup_addDefaults_none {d : String → List Value} {df : DataFrame}
    {cols : List String} {c : String}
    (hdf : dfLookup c df = none) (hc : c ∈ cols) :
    dfLookup c (addDefaults d df cols) = some (d c) := by
  induction cols generalizing df with
  | nil => cases hc
  | cons c' rest ih =>
    unfold addDefaults
    rw [List.foldl_cons]
    by_cases hcc : c = c'
    · rw [← hcc, if_neg (by rw [hdf]; simp)]
      have hself : dfLookup c (df ++ [(c, d c)]) = some (d c) := by
        rw [dfLookup_append_right hdf, dfLookup, if_pos rfl]
      exact dfLookup_addDefaults_of_some hself
    · have hrest : c ∈ rest := by
        rcases List.mem_cons.mp hc with h' | h'
        · exact absurd h' hcc
        · exact h'
      by_cases hs : (dfLookup c' df).isSome
      · rw [if_pos hs]
        exact ih hdf hrest
      · rw [if_neg hs]
        refine ih ?_ hrest
        rw [dfLookup_append_right hdf, dfLookup,
          if_neg (fun he => hcc he.symm)]
        rfl

theorem dfLookup_addDefaults_isSome {d : String → List Value}
    {df : DataFrame} {cols : List String} {c : String} (hc : c ∈ cols) :
    (dfLookup c (addDefaults d df cols)).isSome = true := by
  cases hl : dfLookup c df with
  | some v => rw [dfLookup_addDefaults_of_some hl]; rfl
  | none => rw [dfLookup_addDefaults_none hl hc]; rfl

/-- C10 counterexample: one fetched record (an `api`-only document) with
no `timestamp` field — `get_api_logs` raises the uncaught pandas
`ValueError` from `df["timestamp"] = pd.to_datetime([])`
(src/2_Dashboard.py:198) and returns no DataFrame at all, refuting
"for every set of stored log records ... get_api_logs returns a
DataFrame that contains all eight expected columns". -/
theorem get_api_logs_counterexample :
    get_api_logs
        [{ api := some "Image API", timestamp := none, user_id := none
           status_code := none, country := none, api_version := none
           endpoint := none, latency_ms := none }] none none =
      .error "ValueError: Length of values (0) does not match length of index" :=
  rfl

/-- C10 (amended): whenever `get_api_logs` returns (the store is empty,
or some fetched record carries a `timestamp`), the DataFrame carries all
eight expected columns, every non-`timestamp` expected column absent
from the fetched records is synthesized as a constant column of its
default (`"unknown_api"`, `"unknown_user"`, `200`, `"Unknown"`,
`"v1.0"`, `"/default"`, `50.0`), and on the empty store the `timestamp`
column is synthesized empty; but when records are fetched and none
carries a `timestamp`, the fallback assignment raises an uncaught
`ValueError` and no DataFrame is returned. -/
theorem get_api_logs_default_columns (recs : List LogRec)
    (startD endD : Option Int) :
    (∀ df : DataFrame, get_api_logs recs startD endD = .ok df →
      (∀ c ∈ expectedCols, (dfLookup c df).isSome = true) ∧
      (∀ c ∈ expectedCols, c ≠ "timestamp" →
        ((recs.filter (matchesQuery startD endD)).any
            (fun r => (getField r c).isSome) = false →
          dfLookup c df =
            some (List.replicate
              (recs.filter (matchesQuery startD endD)).length
              (defaultFor c))))) ∧
    (recs.filter (matchesQuery startD endD) = [] →
      ∃ df : DataFrame, get_api_logs recs startD endD = .ok df ∧
        dfLookup "timestamp" df = some []) ∧
    (recs.filter (matchesQuery startD endD) ≠ [] →
      (recs.filter (matchesQuery startD endD)).any
          (fun r => (getField r "timestamp").isSome) = false →
      get_api_logs recs startD endD =
        .error "ValueError: Length of values (0) does not match length of index") ∧
    (recs.filter (matchesQuery startD endD) ≠ [] →
      (recs.filter (matchesQuery startD endD)).any
          (fun r => (getField r "timestamp").isSome) = true →
      ∃ df : DataFrame, get_api_logs recs startD endD = .ok df) := by
  have hts_none : (recs.filter (matchesQuery startD endD)).any
        (fun r => (getField r "timestamp").isSome) = false →
      dfLookup "timestamp"
        (ofRecords (recs.filter (matchesQuery startD endD))) = none := by
    intro habs
    unfold ofRecords
    rw [dfLookup_filter_map, if_neg]
    intro hmem
    have hpc := (List.mem_filter.mp hmem).2
    rw [habs] at hpc
    cases hpc
  refine ⟨?_, ?_, ?_, ?_⟩
  · intro df hdf
    unfold get_api_logs at hdf
    split_ifs at hdf with h1 h2
    · injection hdf with hdf
      subst hdf
      constructor
      · intro c hc
        exact dfLookup_addDefaults_isSome hc
      · intro c hc hcts habs
        have h0 : dfLookup c
            (ofRecords (recs.filter (matchesQuery startD endD))) = none := by
          unfold ofRecords
          rw [dfLookup_filter_map, if_neg]
          intro hmem
          have hpc := (List.mem_filter.mp hmem).2
          rw [habs] at hpc
          cases hpc
        exact dfLookup_addDefaults_none h0 hc
    · injection hdf with hdf
      subst hdf
      constructor
      · intro c hc
        exact dfLookup_addDefaults_isSome hc
      · intro c hc hcts habs
        have h0 : dfLookup c
            (ofRecords (recs.filter (matchesQuery startD endD))) = none := by
          unfold ofRecords
          rw [dfLookup_filter_map, if_neg]
          intro hmem
          have hpc := (List.mem_filter.mp hmem).2
          rw [habs] at hpc
          cases hpc
        have h1 : dfLookup c
            (dfSetCol (ofRecords (recs.filter (matchesQuery startD endD)))
              "timestamp" []) = none := by
          rw [dfLookup_dfSetCol_other _ _ hcts]
          exact h0
        exact dfLookup_addDefaults_none h1 hc
  · intro hempty
    unfold get_api_logs
    rw [hempty]
    exact ⟨_, rfl,
      dfLookup_addDefaults_of_some (dfLookup_dfSetCol_self _ _ _)⟩
  · intro hne habs
    unfold get_api_logs
    rw [if_neg (by
      intro hcond
      rw [hts_none habs] at hcond
      simp at hcond)]
    rw [if_neg (fun h => hne (List.length_eq_zero.mp h))]
  · intro hne hpres
    unfold get_api_logs
    have hsome : (dfLookup "timestamp"
        (ofRecords (recs.filter (matchesQuery startD endD)))).isSome = true := by
      unfold ofRecords
      rw [dfLookup_filter_map, if_pos]
      · rfl
      · exact List.mem_filter.mpr ⟨by decide, hpres⟩
    rw [if_pos ⟨hsome, hne⟩]
    exact ⟨_, rfl⟩

/-- C10 witness: the empty store (a returned frame with all columns, the
defaults synthesized as empty constant columns) and a one-record store
with no timestamps (the raising case). -/
theorem get_api_logs_default_columns_witness :
    (dfLookup "api"
        [("timestamp", ([] : List Value)), ("api", []), ("user_id", []),
         ("status_code", []), ("country", []), ("api_version", []),
         ("endpoint", []), ("latency_ms", [])]).isSome = true ∧
    dfLookup "api"
        [("timestamp", ([] : List Value)), ("api", []), ("user_id", []),
         ("status_code", []), ("country", []), ("api_version", []),
         ("endpoint", []), ("latency_ms", [])] = some [] ∧
    (∃ df : DataFrame, get_api_logs [] none none = .ok df ∧
      dfLookup "timestamp" df = some []) ∧
    get_api_logs
        [{ api := none, timestamp := none, user_id := some "user_1"
           status_code := none, country := none, api_version := none
           endpoint := none, latency_ms := none }] none none =
      .error "ValueError: Length of values (0) does not match length of index" := by
  have h := get_api_logs_default_columns [] none none
  have hok : get_api_logs [] none none =
      .ok [("timestamp", ([] : List Value)), ("api", []), ("user_id", []),
           ("status_code", []), ("country", []), ("api_version", []),
           ("endpoint", []), ("latency_ms", [])] := rfl
  refine ⟨(h.1 _ hok).1 "api" (by decide), ?_, h.2.1 rfl, ?_⟩
  · have h2 := (h.1 _ hok).2 "api" (by decide) (by decide) (by decide)
    simpa using h2
  · exact (get_api_logs_default_columns
      [{ api := none, timestamp := none, user_id := some "user_1"
         status_code := none, country := none, api_version := none
         endpoint := none, latency_ms := none }] none none).2.2.1
      (by decide) (by decide)

end Chatbot
